import Mathlib

/-!
Shallow embedding of the `proxy_cheap` Home Assistant integration
(`custom_components/proxy_cheap/{api.py, coordinator.py}`) and proofs of the
frozen claims about it.

JSON values decoded by Python's `json` module are modelled by the inductive
`Json` below.  Python `None` and JSON `null` are the same object, so a
dictionary `get` that returns `None` for an absent key is modelled as
returning `Json.null`.  Numbers are modelled as `Int` (the records the
claims are about carry integer ids, ports and bandwidth figures).
Python truthiness (`if x:`, `x or y`) is modelled by `Json.truthy`.
Places where the Python code would raise `TypeError`/`AttributeError`
(e.g. calling `.upper()` on `None`, subtracting a string) are modelled
with a harmless default value; every theorem that depends on such a spot
carries a well-formedness hypothesis that excludes those crash inputs,
matching the implicit assumption of the source that vendor records are
JSON objects with sanely-typed fields.
-/

inductive Json where
  | null : Json
  | bool : Bool → Json
  | int : Int → Json
  | str : String → Json
  | arr : List Json → Json
  | obj : List (String × Json) → Json
deriving Repr

mutual

/-- Structural equality on `Json`, modelling Python `==` on decoded JSON
values (used for dictionary keys; `bool`/`int` cross-equality such as
`True == 1` does not occur for the id keys the code compares). -/
def Json.beq : Json → Json → Bool
  | .null, .null => true
  | .bool a, .bool b => a == b
  | .int a, .int b => a == b
  | .str a, .str b => a == b
  | .arr xs, .arr ys => Json.beqArr xs ys
  | .obj fs, .obj gs => Json.beqObj fs gs
  | _, _ => false

/-- Elementwise equality of JSON arrays. -/
def Json.beqArr : List Json → List Json → Bool
  | [], [] => true
  | x :: xs, y :: ys => Json.beq x y && Json.beqArr xs ys
  | _, _ => false

/-- Elementwise equality of JSON object field lists. -/
def Json.beqObj : List (String × Json) → List (String × Json) → Bool
  | [], [] => true
  | (k, v) :: fs, (l, w) :: gs => k == l && Json.beq v w && Json.beqObj fs gs
  | _, _ => false

end

instance : BEq Json := ⟨Json.beq⟩

/-- Python truthiness of a decoded JSON value: `None`, `False`, `0`, `""`,
`[]` and `{}` are falsy, everything else truthy. -/
def Json.truthy : Json → Bool
  | .null => false
  | .bool b => b
  | .int n => n != 0
  | .str s => s ≠ ""
  | .arr xs => !xs.isEmpty
  | .obj fs => !fs.isEmpty

/-- `d.get(k)` on a Python dict decoded from JSON: the stored value when the
key is present, `None` otherwise.  A stored JSON `null` is also Python
`None`, which is exactly `Json.null` here. -/
def pyGet (fs : List (String × Json)) (k : String) : Json :=
  match fs.lookup k with
  | some v => v
  | none => Json.null

/-- `d.get(k, default)`: the stored value when the key is present (even when
that value is `null`), the default otherwise. -/
def pyGetD (fs : List (String × Json)) (k : String) (d : Json) : Json :=
  match fs.lookup k with
  | some v => v
  | none => d

/-- `k in d` on a Python dict. -/
def hasKey (fs : List (String × Json)) (k : String) : Bool :=
  (fs.lookup k).isSome

/-- Python `a or b`: `a` when `a` is truthy, otherwise `b`. -/
def pyOr (a b : Json) : Json :=
  if a.truthy then a else b

/-- The field list of a JSON object; `[]` for non-objects.  The Python code
reaches `.get` on such a value only when it is a dict (a non-dict truthy
value would raise `AttributeError`); theorems about those code paths assume
`objOrFalsy` of the value. -/
def Json.fields : Json → List (String × Json)
  | .obj fs => fs
  | _ => []

def Json.isObj : Json → Bool
  | .obj _ => true
  | _ => false

def Json.isArr : Json → Bool
  | .arr _ => true
  | _ => false

/-- `x is None` on a decoded JSON value. -/
def Json.isNull : Json → Bool
  | .null => true
  | _ => false

/-- Python `str.lower()`, characterwise (the keys and status strings the
code lowercases are ASCII, where this agrees with Python). -/
def pyLower (s : String) : String := ⟨s.data.map Char.toLower⟩

/-- Python `str.upper()`, characterwise. -/
def pyUpper (s : String) : String := ⟨s.data.map Char.toUpper⟩

/-- The value is either falsy (so `x or {}` replaces it by `{}`) or a dict:
exactly the values on which `proxy.get("connection", {}) or {}` followed by
`.get` does not raise in Python. -/
def objOrFalsy (j : Json) : Bool :=
  !j.truthy || j.isObj

/-- The key is absent or its value is a string: exactly the records on which
`proxy.get("proxyType", "").upper()` does not raise in Python. -/
def strOrAbsent (fs : List (String × Json)) (k : String) : Bool :=
  match fs.lookup k with
  | none => true
  | some (.str _) => true
  | some _ => false

/-- The key is absent, or its value is `null` or an integer: exactly the
records on which the bandwidth arithmetic does not raise in Python. -/
def intOrNullOrAbsent (fs : List (String × Json)) (k : String) : Bool :=
  match fs.lookup k with
  | none => true
  | some .null => true
  | some (.int _) => true
  | some _ => false

/-! ## API client (`api.py`) -/

/-- The exception classes of `api.py`.  The source defines exactly two:
`ProxyCheapApiError(Exception)` and `ProxyCheapAuthError(ProxyCheapApiError)`.
`authError` models an instance of the subclass, `apiError` an instance of
the base class that is not an auth error.  There is no separate
connection-error class in the source. -/
inductive ApiErr where
  | authError : String → ApiErr
  | apiError : String → ApiErr
deriving Repr, DecidableEq

/-- `True` exactly for instances of `ProxyCheapAuthError`. -/
def ApiErr.isAuth : ApiErr → Bool
  | .authError _ => true
  | .apiError _ => false

/-- An HTTP response as `_handle_response` observes it: a status code, the
body text, and the result of attempting to parse the body as JSON
(`parsed = none` models a body `response.json()` raises on, with
`parseErrMsg` the text of that exception). -/
structure HttpResponse where
  status : Nat
  text : String
  parsed : Option Json
  parseErrMsg : String
deriving Repr

/-- `ProxyCheapApi._handle_response`: 401 and 403 raise
`ProxyCheapAuthError`, any other status ≥ 400 raises `ProxyCheapApiError`
with the status and body text, and a non-error status whose body does not
parse raises `ProxyCheapApiError`; otherwise the parsed JSON is returned. -/
def handle_response (r : HttpResponse) : Except ApiErr Json :=
  if r.status == 401 then
    .error (.authError "Invalid API credentials")
  else if r.status == 403 then
    .error (.authError "Access forbidden - check API permissions")
  else if r.status ≥ 400 then
    .error (.apiError ("API error " ++ toString r.status ++ ": " ++ r.text))
  else
    match r.parsed with
    | some j => .ok j
    | none => .error (.apiError ("Failed to parse response: " ++ r.parseErrMsg))

/-- What one attempted HTTP round trip can come back as, seen from
`_request`: the `asyncio.timeout` expiring, an `aiohttp.ClientError`, or an
HTTP response. -/
inductive FetchResult where
  | timeout : String → FetchResult
  | clientError : String → FetchResult
  | response : HttpResponse → FetchResult
deriving Repr

/-- `ProxyCheapApi._request`: a timeout and a client error are both
re-raised as the base `ProxyCheapApiError` class (the source has no
distinct connection-error class); a response goes through
`_handle_response`. -/
def request (f : FetchResult) : Except ApiErr Json :=
  match f with
  | .timeout msg => .error (.apiError ("Timeout connecting to API: " ++ msg))
  | .clientError msg => .error (.apiError ("Error connecting to API: " ++ msg))
  | .response r => handle_response r

/-- The response-shape tolerance of `ProxyCheapApi.get_proxies`, applied to
the JSON value `_request` returned: a list is returned as is; a dict with a
`"proxies"` key yields the value stored there; otherwise a dict with a
`"data"` key yields the value stored there; any other truthy value is
wrapped in a one-element list; a falsy value yields the empty list. -/
def get_proxies_shape (result : Json) : Json :=
  if result.isArr then result
  else if result.isObj && hasKey result.fields "proxies" then
    pyGet result.fields "proxies"
  else if result.isObj && hasKey result.fields "data" then
    pyGet result.fields "data"
  else if result.truthy then .arr [result]
  else .arr []

/-- `ProxyCheapApi.validate_credentials`, as a function of the outcome of
the underlying `get_balance` call: `True` on success, `False` when the call
raised `ProxyCheapAuthError`, and `False` (after logging a warning) when it
raised any other `ProxyCheapApiError`.  Both `except` clauses return, so no
error of the client's taxonomy escapes. -/
def validate_credentials : Except ApiErr Json → Bool
  | .ok _ => true
  | .error (.authError _) => false
  | .error (.apiError _) => false

/-! ## Coordinator (`coordinator.py`) -/

/-- Substring test on character lists: `needle in hay` for Python strings. -/
def charsContain (needle : List Char) : List Char → Bool
  | [] => needle.isEmpty
  | c :: rest => needle.isPrefixOf (c :: rest) || charsContain needle rest

/-- The key test of `_filter_sensitive_data`:
`"password" in k.lower() or "secret" in k.lower()`. -/
def sensitiveKey (k : String) : Bool :=
  charsContain "password".data (pyLower k).data ||
    charsContain "secret".data (pyLower k).data

/-- The dict comprehension inside `_filter_sensitive_data`: keep the entries
of a nested dict whose keys contain neither `password` nor `secret`
(case-insensitive). -/
def filterInner (fs : List (String × Json)) : List (String × Json) :=
  fs.filter (fun kv => !sensitiveKey kv.1)

/-- `ProxyCheapCoordinator._filter_sensitive_data`: iterate over the items
of the raw record in order; a dict-valued entry is kept under its key with
its own entries filtered by `filterInner` (note: the outer key itself is not
tested on this branch); any other entry is kept only when its key is not
sensitive. -/
def filter_sensitive_data : List (String × Json) → List (String × Json)
  | [] => []
  | (k, v) :: rest =>
    if v.isObj then (k, Json.obj (filterInner v.fields)) :: filter_sensitive_data rest
    else if sensitiveKey k then filter_sensitive_data rest
    else (k, v) :: filter_sensitive_data rest

/-- Python `str(x)` for the values that can reach
`self.proxy_names.get(str(proxy_id))`: scalars are rendered as Python
renders them; containers cannot be dict keys on the other side of that
lookup, so their rendering is irrelevant to the result and a placeholder is
used. -/
def pyStrOf : Json → String
  | .null => "None"
  | .bool b => if b then "True" else "False"
  | .int n => toString n
  | .str s => s
  | .arr _ => "<list>"
  | .obj _ => "<dict>"

/-- The `proxy_names` mapping the coordinator is constructed with
(`dict[int | str, str]`: `__init__.py` coerces keys to `int` where possible
and keeps them as strings otherwise). -/
def NamesMap := List (Json × String)

/-- `proxy_names.get(key)`. -/
def namesGet (names : NamesMap) (k : Json) : Json :=
  match names.find? (fun kv => kv.1 == k) with
  | some kv => .str kv.2
  | none => .null

/-- The normalized proxy record: the exact dict `_normalize_proxy_data`
returns, one field per key.  Values kept as the code stores them. -/
structure NormalizedProxy where
  id : Json
  name : Json
  ip_address : Json
  port : Json
  username : Json
  protocol : Json
  network_type : Json
  country : Json
  region : Json
  city : Json
  bandwidth_total : Json
  bandwidth_used : Json
  bandwidth_remaining : Json
  bandwidth_unlimited : Bool
  expiry_date : Json
  auto_extend_enabled : Json
  authentication_type : Json
  whitelisted_ips : Json
  status : String
  created_at : Json
  ip_version : Json
  connect_ip : Json
  http_port : Json
  https_port : Json
  socks5_port : Json
  isp_name : Json
  order_id : Json
  routes : Json
  raw : List (String × Json)
deriving Repr

/-- `bandwidth_total - used_for_calc` on JSON numbers.  Python raises
`TypeError` outside two `int` operands; that case is modelled as `null` and
excluded by the `intOrNullOrAbsent` hypotheses of the bandwidth theorems. -/
def jsub (a b : Json) : Json :=
  match a, b with
  | .int m, .int n => .int (m - n)
  | _, _ => .null

/-- `connection = proxy.get("connection", {}) or {}`, as the field list the
subsequent `.get` calls read. -/
def connFields (proxy : List (String × Json)) : List (String × Json) :=
  (pyOr (pyGetD proxy "connection" (.obj [])) (.obj [])).fields

/-- `authentication = proxy.get("authentication", {}) or {}`. -/
def authFields (proxy : List (String × Json)) : List (String × Json) :=
  (pyOr (pyGetD proxy "authentication" (.obj [])) (.obj [])).fields

/-- `bandwidth = proxy.get("bandwidth", {}) or {}`. -/
def bwFields (proxy : List (String × Json)) : List (String × Json) :=
  (pyOr (pyGetD proxy "bandwidth" (.obj [])) (.obj [])).fields

/-- `metadata = proxy.get("metadata", {}) or {}`. -/
def metaFields (proxy : List (String × Json)) : List (String × Json) :=
  (pyOr (pyGetD proxy "metadata" (.obj [])) (.obj [])).fields

/-- `proxy_type = proxy.get("proxyType", "").upper()`.  A present non-string
value would raise `AttributeError` in Python; it is modelled as `""` and
excluded by `strOrAbsent` hypotheses where the distinction matters. -/
def proxy_type_of (proxy : List (String × Json)) : String :=
  pyUpper
    (match pyGetD proxy "proxyType" (.str "") with
     | .str s => s
     | _ => "")

/-- The port-selection branch of `_normalize_proxy_data`: the connection
port named by the declared proxy type, or, for an absent/unrecognized type,
`connection.get("httpPort") or connection.get("httpsPort") or
connection.get("socks5Port")`. -/
def port_of (proxy : List (String × Json)) : Json :=
  let connection := connFields proxy
  if proxy_type_of proxy = "HTTP" then pyGet connection "httpPort"
  else if proxy_type_of proxy = "HTTPS" then pyGet connection "httpsPort"
  else if proxy_type_of proxy = "SOCKS5" then pyGet connection "socks5Port"
  else
    pyOr (pyOr (pyGet connection "httpPort") (pyGet connection "httpsPort"))
      (pyGet connection "socks5Port")

/-- The bandwidth-remaining computation of `_normalize_proxy_data`:
`None` when `total` is `None`, otherwise `total - used` with a `None`
`used` replaced by `0`. -/
def bandwidth_remaining_of (proxy : List (String × Json)) : Json :=
  let bandwidth_total := pyGet (bwFields proxy) "total"
  let bandwidth_used := pyGet (bwFields proxy) "used"
  if !bandwidth_total.isNull then
    jsub bandwidth_total
      (if !bandwidth_used.isNull then bandwidth_used else .int 0)
  else Json.null

/-- The `authentication_type` expression of `_normalize_proxy_data`:
`"IP_WHITELIST"` when `authentication.get("whitelistedIps")` is truthy,
else `"USERNAME_PASSWORD"` when `authentication.get("username")` is truthy,
else `None`. -/
def authentication_type_of (proxy : List (String × Json)) : Json :=
  if (pyGet (authFields proxy) "whitelistedIps").truthy then .str "IP_WHITELIST"
  else if (pyGet (authFields proxy) "username").truthy then
    .str "USERNAME_PASSWORD"
  else .null

/-- `ProxyCheapCoordinator._normalize_proxy_data`. -/
def normalize_proxy_data (names : NamesMap) (proxy : List (String × Json)) :
    NormalizedProxy :=
  let connection := connFields proxy
  let authentication := authFields proxy
  let bandwidth := bwFields proxy
  let metadata := metaFields proxy
  let port := port_of proxy
  let bandwidth_total := pyGet bandwidth "total"
  let bandwidth_used := pyGet bandwidth "used"
  let bandwidth_remaining := bandwidth_remaining_of proxy
  let bandwidth_unlimited := bandwidth_total.isNull
  let raw_status := pyGetD proxy "status" (.str "unknown")
  let status :=
    match raw_status with
    | .str s => pyLower s
    | _ => "unknown"
  let proxy_id := pyGet proxy "id"
  let custom_name :=
    pyOr (pyOr (pyOr (pyOr (pyOr (pyOr (pyOr
      (namesGet names proxy_id)
      (namesGet names (.str (pyStrOf proxy_id))))
      (pyGet proxy "name"))
      (pyGet proxy "label"))
      (pyGet proxy "alias"))
      (pyGet proxy "displayName"))
      (pyGet metadata "name"))
      (pyGet metadata "label")
  { id := pyGet proxy "id"
    name := custom_name
    ip_address := pyOr (pyGet connection "publicIp") (pyGet connection "connectIp")
    port := port
    username := pyGet authentication "username"
    protocol := pyGet proxy "proxyType"
    network_type := pyGet proxy "networkType"
    country := pyGet proxy "countryCode"
    region := pyGet proxy "region"
    city := pyGet proxy "city"
    bandwidth_total := bandwidth_total
    bandwidth_used := bandwidth_used
    bandwidth_remaining := bandwidth_remaining
    bandwidth_unlimited := bandwidth_unlimited
    expiry_date := pyGet proxy "expiresAt"
    auto_extend_enabled := pyGet proxy "autoExtendEnabled"
    authentication_type := authentication_type_of proxy
    whitelisted_ips := pyGetD authentication "whitelistedIps" (.arr [])
    status := status
    created_at := pyGet proxy "createdAt"
    ip_version := pyGet connection "ipVersion"
    connect_ip := pyGet connection "connectIp"
    http_port := pyGet connection "httpPort"
    https_port := pyGet connection "httpsPort"
    socks5_port := pyGet connection "socks5Port"
    isp_name := pyGet metadata "ispName"
    order_id := pyGet metadata "orderId"
    routes := pyGetD proxy "routes" (.arr [])
    raw := filter_sensitive_data proxy }

/-- `proxies[proxy_id] = value` on a Python dict modelled as an ordered
association list: replace the value under an existing equal key in place,
otherwise append the new pair. -/
def dictInsert (k : Json) (v : NormalizedProxy) :
    List (Json × NormalizedProxy) → List (Json × NormalizedProxy)
  | [] => [(k, v)]
  | (k', v') :: rest =>
    if k' == k then (k', v) :: rest else (k', v') :: dictInsert k v rest

/-- `proxy.get("id") or proxy.get("proxy_id")`: the identifier the
coordinator derives for a raw record. -/
def derive_proxy_id (proxy : List (String × Json)) : Json :=
  pyOr (pyGet proxy "id") (pyGet proxy "proxy_id")

/-- One iteration of the proxy-processing loop of `_async_update_data`:
derive the record's identifier; when it is truthy, store the normalized
record under it (`proxies[proxy_id] = ...`), otherwise skip the record. -/
def buildStep (names : NamesMap) (acc : List (Json × NormalizedProxy))
    (proxy : List (String × Json)) : List (Json × NormalizedProxy) :=
  let pid := derive_proxy_id proxy
  if pid.truthy then dictInsert pid (normalize_proxy_data names proxy) acc
  else acc

/-- The proxy-processing loop of `_async_update_data`, over all raw records
in order, starting from the empty dict. -/
def buildProxies (names : NamesMap) (proxies_data : List (List (String × Json))) :
    List (Json × NormalizedProxy) :=
  proxies_data.foldl (buildStep names) []

/-- A value of the snapshot dict `_async_update_data` returns: the JSON
balance or currency, the proxies mapping, or the integer count. -/
inductive SnapVal where
  | jval : Json → SnapVal
  | pmap : List (Json × NormalizedProxy) → SnapVal
  | count : Nat → SnapVal
deriving Repr

/-- The snapshot dict a successful poll cycle returns, given the raw
balance response and the raw proxy records:
`{"balance": ..., "currency": ..., "proxies": ..., "proxy_count": ...}`
with `balance` defaulting to `0` and `currency` to `"USD"` when the balance
response omits them. -/
def async_update_data (names : NamesMap) (balance_data : List (String × Json))
    (proxies_data : List (List (String × Json))) : List (String × SnapVal) :=
  let proxies := buildProxies names proxies_data
  [("balance", .jval (pyGetD balance_data "balance" (.int 0))),
   ("currency", .jval (pyGetD balance_data "currency" (.str "USD"))),
   ("proxies", .pmap proxies),
   ("proxy_count", .count proxies.length)]

/-- Membership of a key in the proxies mapping built by the coordinator. -/
def pmapHasKey (m : List (Json × NormalizedProxy)) (k : Json) : Bool :=
  m.any (fun kv => kv.1 == k)

/-- A raw proxy record `_normalize_proxy_data` processes without a Python
`TypeError`/`AttributeError`: the four nested sub-objects are dicts or
falsy, `proxyType` is a string when present, and the bandwidth figures are
integers when present and non-null. -/
def wfProxy (proxy : List (String × Json)) : Bool :=
  objOrFalsy (pyGetD proxy "connection" (.obj [])) &&
  objOrFalsy (pyGetD proxy "authentication" (.obj [])) &&
  objOrFalsy (pyGetD proxy "bandwidth" (.obj [])) &&
  objOrFalsy (pyGetD proxy "metadata" (.obj [])) &&
  strOrAbsent proxy "proxyType" &&
  intOrNullOrAbsent (bwFields proxy) "total" &&
  intOrNullOrAbsent (bwFields proxy) "used"

/-! ## Lawfulness of the JSON equality test -/

mutual

theorem Json.beq_iff : ∀ (a b : Json), (Json.beq a b = true) ↔ a = b
  | .null, b => by cases b <;> simp [Json.beq]
  | .bool x, b => by cases b <;> simp [Json.beq]
  | .int x, b => by cases b <;> simp [Json.beq]
  | .str x, b => by cases b <;> simp [Json.beq]
  | .arr xs, b => by
    cases b with
    | arr ys => simpa [Json.beq] using Json.beqArr_iff xs ys
    | null => simp [Json.beq]
    | bool y => simp [Json.beq]
    | int y => simp [Json.beq]
    | str y => simp [Json.beq]
    | obj gs => simp [Json.beq]
  | .obj fs, b => by
    cases b with
    | obj gs => simpa [Json.beq] using Json.beqObj_iff fs gs
    | null => simp [Json.beq]
    | bool y => simp [Json.beq]
    | int y => simp [Json.beq]
    | str y => simp [Json.beq]
    | arr ys => simp [Json.beq]

theorem Json.beqArr_iff : ∀ (xs ys : List Json), (Json.beqArr xs ys = true) ↔ xs = ys
  | [], [] => by simp [Json.beqArr]
  | [], _ :: _ => by simp [Json.beqArr]
  | _ :: _, [] => by simp [Json.beqArr]
  | x :: xs, y :: ys => by
    simp [Json.beqArr, Json.beq_iff x y, Json.beqArr_iff xs ys]

theorem Json.beqObj_iff :
    ∀ (fs gs : List (String × Json)), (Json.beqObj fs gs = true) ↔ fs = gs
  | [], [] => by simp [Json.beqObj]
  | [], _ :: _ => by simp [Json.beqObj]
  | _ :: _, [] => by simp [Json.beqObj]
  | (k, v) :: fs, (l, w) :: gs => by
    simp [Json.beqObj, Json.beq_iff v w, Json.beqObj_iff fs gs, Prod.ext_iff]

end

instance : LawfulBEq Json where
  eq_of_beq h := (Json.beq_iff _ _).mp h
  rfl := (Json.beq_iff _ _).mpr rfl

instance : DecidableEq Json :=
  fun a b => decidable_of_iff _ (Json.beq_iff a b)

/-! ## Claims about the API client -/

/-- C4 (counterexample): the claim says a request timeout fails with a
`ConnectionError` kind of a three-kind taxonomy; in the source a timeout is
re-raised as the base `ProxyCheapApiError` class — exactly the class a
generic HTTP 500 failure raises — and no connection-error class exists. -/
theorem C4_counterexample :
    request (FetchResult.timeout "t") =
      Except.error (ApiErr.apiError "Timeout connecting to API: t") ∧
    request (FetchResult.response ⟨500, "oops", none, ""⟩) =
      Except.error (ApiErr.apiError "API error 500: oops") ∧
    (ApiErr.apiError "Timeout connecting to API: t").isAuth = false :=
  ⟨rfl, rfl, rfl⟩

/-- C4 (amended): a request timeout fails with the generic `ApiError` kind
(the source defines no distinct connection-error class); HTTP 401 and 403
fail with the `AuthError` kind, distinct from the generic kind; any other
HTTP status ≥ 400 fails with the `ApiError` kind carrying the status code
and response body; and a non-error status whose body is not parseable fails
with the `ApiError` kind. -/
theorem C4_amended (m : String) (r : HttpResponse) :
    request (.timeout m) =
      .error (.apiError ("Timeout connecting to API: " ++ m)) ∧
    (r.status = 401 →
      request (.response r) = .error (.authError "Invalid API credentials")) ∧
    (r.status = 403 →
      request (.response r) =
        .error (.authError "Access forbidden - check API permissions")) ∧
    (400 ≤ r.status → r.status ≠ 401 → r.status ≠ 403 →
      request (.response r) =
        .error (.apiError ("API error " ++ toString r.status ++ ": " ++ r.text))) ∧
    (r.status < 400 → r.parsed = none →
      request (.response r) =
        .error (.apiError ("Failed to parse response: " ++ r.parseErrMsg))) ∧
    (∀ j : Json, r.status < 400 → r.parsed = some j →
      request (.response r) = .ok j) ∧
    (∀ s, (ApiErr.authError s).isAuth = true ∧ (ApiErr.apiError s).isAuth = false) := by
  refine ⟨rfl, ?_, ?_, ?_, ?_, ?_, fun s => ⟨rfl, rfl⟩⟩
  · intro h
    simp [request, handle_response, h]
  · intro h
    simp [request, handle_response, h]
  · intro h h1 h3
    simp [request, handle_response, h1, h3, h]
  · intro h hp
    have h1 : r.status ≠ 401 := by omega
    have h3 : r.status ≠ 403 := by omega
    simp [request, handle_response, h1, h3, Nat.not_le.mpr h, hp]
  · intro j h hp
    have h1 : r.status ≠ 401 := by omega
    have h3 : r.status ≠ 403 := by omega
    simp [request, handle_response, h1, h3, Nat.not_le.mpr h, hp]

/-- C4 (witness for the amended theorem): HTTP 401 yields the auth-error
kind. -/
theorem C4_amended_witness :
    request (.response ⟨401, "x", none, ""⟩) =
      .error (.authError "Invalid API credentials") :=
  (C4_amended "m" ⟨401, "x", none, ""⟩).2.1 rfl

/-- C7: `validate_credentials` calls get-balance and collapses every
outcome of the underlying call to a boolean: `False` on an auth error,
`False` on any other API error (after a logged warning), `True` on success.
Being a total function into `Bool`, it raises no error of the client's
taxonomy for any outcome of the call. -/
theorem C7_validate_credentials (f : FetchResult) :
    (∀ m : String, request f = .error (.authError m) →
      validate_credentials (request f) = false) ∧
    (∀ m : String, request f = .error (.apiError m) →
      validate_credentials (request f) = false) ∧
    (∀ j : Json, request f = .ok j →
      validate_credentials (request f) = true) ∧
    (validate_credentials (request f) = true ∨
      validate_credentials (request f) = false) := by
  refine ⟨?_, ?_, ?_, ?_⟩
  · intro m h
    rw [h]
    rfl
  · intro m h
    rw [h]
    rfl
  · intro j h
    rw [h]
    rfl
  · rcases h : request f with e | j
    · right
      rcases e with m | m <;> rfl
    · left
      rfl

/-- C7 (witness): on an HTTP 401 outcome, validation returns `False`. -/
theorem C7_validate_credentials_witness :
    validate_credentials (request (.response ⟨401, "x", none, ""⟩)) = false :=
  (C7_validate_credentials (.response ⟨401, "x", none, ""⟩)).1
    "Invalid API credentials" rfl

/-- C8: `get_proxies` normalizes the three vendor response shapes to a
list: a bare list is returned as is; an object with a `proxies` key yields
the value stored under `proxies`; an object with a `data` key (and no
`proxies` key) yields the value stored under `data` — in particular
`{"data": [...]}` yields the inner list, not the wrapper object. -/
theorem C8_get_proxies_shapes (xs : List Json) (fs : List (String × Json))
    (v : Json) :
    get_proxies_shape (.arr xs) = .arr xs ∧
    (fs.lookup "proxies" = some v → get_proxies_shape (.obj fs) = v) ∧
    (fs.lookup "proxies" = none → fs.lookup "data" = some v →
      get_proxies_shape (.obj fs) = v) := by
  refine ⟨rfl, ?_, ?_⟩
  · intro h
    simp [get_proxies_shape, Json.isArr, Json.isObj, Json.fields, hasKey,
      pyGet, h]
  · intro hp hd
    simp [get_proxies_shape, Json.isArr, Json.isObj, Json.fields, hasKey,
      pyGet, hp, hd]

/-- C8 (witness): the `{"data": [...]}` scenario yields the inner list. -/
theorem C8_get_proxies_shapes_witness :
    get_proxies_shape (.obj [("data", .arr [.int 1, .int 2])]) =
      .arr [.int 1, .int 2] :=
  (C8_get_proxies_shapes [] [("data", .arr [.int 1, .int 2])]
    (.arr [.int 1, .int 2])).2.2 rfl rfl

/-- C10: when the list-proxies response is neither a list nor an object
with a `proxies` or `data` key, the operation still returns a list: a
truthy value is wrapped as a one-element list and a falsy value yields the
empty list. -/
theorem C10_get_proxies_fallback (result : Json)
    (h1 : result.isArr = false)
    (h2 : (result.isObj && hasKey result.fields "proxies") = false)
    (h3 : (result.isObj && hasKey result.fields "data") = false) :
    (result.truthy = true → get_proxies_shape result = .arr [result]) ∧
    (result.truthy = false → get_proxies_shape result = .arr []) := by
  constructor
  · intro ht
    simp [get_proxies_shape, h1, h2, h3, ht]
  · intro ht
    simp [get_proxies_shape, h1, h2, h3, ht]

/-- C10 (witness): a truthy object without `proxies`/`data` keys is wrapped
in a one-element list, and `null` yields the empty list. -/
theorem C10_get_proxies_fallback_witness :
    get_proxies_shape (.obj [("x", .int 1)]) = .arr [.obj [("x", .int 1)]] ∧
    get_proxies_shape Json.null = .arr [] :=
  ⟨(C10_get_proxies_fallback (.obj [("x", .int 1)]) rfl rfl rfl).1 rfl,
   (C10_get_proxies_fallback Json.null rfl rfl rfl).2 rfl⟩

/-! ## Claims about the coordinator -/

/-- C1 (counterexample): a top-level key containing `secret` whose value is
a sub-object survives redaction — `_filter_sensitive_data` tests the outer
key only on the non-dict branch.  `{"secretToken": {"password": "x"}}` is
retained as `{"secretToken": {}}`, so the sensitive key `"secretToken"`
appears at depth 0 of the retained copy, contradicting the claim that a
key containing `secret` never appears at depth ≤ 1 regardless of the type
of its value. -/
theorem C1_counterexample :
    sensitiveKey "secretToken" = true ∧
    filter_sensitive_data
        [("secretToken", Json.obj [("password", Json.str "x")])] =
      [("secretToken", Json.obj [])] := by
  refine ⟨by decide, by decide⟩

/-- C1 (amended): redaction removes every top-level field with a non-dict
value whose key contains `password` or `secret` (case-insensitive), and
within each retained sub-object every entry with such a key (any value
type); but a top-level field with a sensitive key whose value is itself a
sub-object is retained, under its key, with its own sensitive entries
removed. -/
theorem C1_redaction_amended (data : List (String × Json)) :
    (∀ (k : String) (v : Json), (k, v) ∈ filter_sensitive_data data →
      v.isObj = false → sensitiveKey k = false) ∧
    (∀ (k : String) (fs : List (String × Json)),
      (k, Json.obj fs) ∈ filter_sensitive_data data →
      ∀ (k' : String) (v' : Json), (k', v') ∈ fs → sensitiveKey k' = false) ∧
    (∀ (k : String) (fs : List (String × Json)), (k, Json.obj fs) ∈ data →
      (k, Json.obj (filterInner fs)) ∈ filter_sensitive_data data) := by
  induction data with
  | nil => simp [filter_sensitive_data]
  | cons kv rest ih =>
    obtain ⟨ih1, ih2, ih3⟩ := ih
    obtain ⟨k0, v0⟩ := kv
    refine ⟨?_, ?_, ?_⟩
    · intro k v hmem hv
      by_cases hobj : v0.isObj = true
      · rw [filter_sensitive_data, if_pos (by simpa using hobj)] at hmem
        rcases List.mem_cons.mp hmem with heq | hmem'
        · obtain ⟨hk, hval⟩ := Prod.mk.injEq .. ▸ heq
          rw [hval] at hv
          simp [Json.isObj] at hv
        · exact ih1 k v hmem' hv
      · rw [filter_sensitive_data, if_neg (by simpa using hobj)] at hmem
        by_cases hs : sensitiveKey k0 = true
        · rw [if_pos (by simpa using hs)] at hmem
          exact ih1 k v hmem hv
        · rw [if_neg (by simpa using hs)] at hmem
          rcases List.mem_cons.mp hmem with heq | hmem'
          · obtain ⟨hk, hval⟩ := Prod.mk.injEq .. ▸ heq
            rw [hk]
            simpa using hs
          · exact ih1 k v hmem' hv
    · intro k fs hmem k' v' hmem'
      by_cases hobj : v0.isObj = true
      · rw [filter_sensitive_data, if_pos (by simpa using hobj)] at hmem
        rcases List.mem_cons.mp hmem with heq | hmemr
        · obtain ⟨hk, hval⟩ := Prod.mk.injEq .. ▸ heq
          have hfs : filterInner v0.fields = fs := by
            simpa [Json.obj.injEq] using hval.symm
          rw [← hfs] at hmem'
          have := List.of_mem_filter hmem'
          simpa using this
        · exact ih2 k fs hmemr k' v' hmem'
      · rw [filter_sensitive_data, if_neg (by simpa using hobj)] at hmem
        by_cases hs : sensitiveKey k0 = true
        · rw [if_pos (by simpa using hs)] at hmem
          exact ih2 k fs hmem k' v' hmem'
        · rw [if_neg (by simpa using hs)] at hmem
          rcases List.mem_cons.mp hmem with heq | hmemr
          · obtain ⟨hk, hval⟩ := Prod.mk.injEq .. ▸ heq
            rw [← hval] at hobj
            simp [Json.isObj] at hobj
          · exact ih2 k fs hmemr k' v' hmem'
    · intro k fs hmem
      rcases List.mem_cons.mp hmem with heq | hmemr
      · obtain ⟨hk, hval⟩ := Prod.mk.injEq .. ▸ heq
        rw [filter_sensitive_data, ← hval,
          if_pos (by simp [Json.isObj] : (Json.obj fs).isObj = true), hk]
        exact List.mem_cons_self _ _
      · by_cases hobj : v0.isObj = true
        · rw [filter_sensitive_data, if_pos (by simpa using hobj)]
          exact List.mem_cons_of_mem _ (ih3 k fs hmemr)
        · rw [filter_sensitive_data, if_neg (by simpa using hobj)]
          by_cases hs : sensitiveKey k0 = true
          · rw [if_pos (by simpa using hs)]
            exact ih3 k fs hmemr
          · rw [if_neg (by simpa using hs)]
            exact List.mem_cons_of_mem _ (ih3 k fs hmemr)

/-- C1 (witness for the amended theorem): the non-sensitive top-level entry
`("user", "u")` survives redaction of
`{"password": 1, "user": "u"}`, and the theorem certifies its key clean. -/
theorem C1_redaction_amended_witness :
    sensitiveKey "user" = false :=
  (C1_redaction_amended [("password", Json.int 1), ("user", Json.str "u")]).1
    "user" (Json.str "u") (by decide) (by decide)

/-- Key membership after a Python dict store: the stored key is present,
and every previously present key remains present. -/
theorem pmapHasKey_dictInsert (k k' : Json) (v : NormalizedProxy)
    (m : List (Json × NormalizedProxy)) :
    pmapHasKey (dictInsert k v m) k' = true ↔
      (pmapHasKey m k' = true ∨ k = k') := by
  induction m with
  | nil => simp [dictInsert, pmapHasKey]
  | cons kv rest ih =>
    obtain ⟨k1, v1⟩ := kv
    by_cases h : k1 = k
    · subst h
      rw [dictInsert, if_pos (by simp)]
      simp only [pmapHasKey, List.any_cons, Bool.or_eq_true, beq_iff_eq]
      tauto
    · rw [dictInsert, if_neg (by simpa using h)]
      simp only [pmapHasKey, List.any_cons, Bool.or_eq_true, beq_iff_eq] at ih ⊢
      tauto

/-- Key membership in the proxies dict built by the loop, relative to an
arbitrary starting accumulator. -/
theorem pmapHasKey_foldl_buildStep (names : NamesMap)
    (pd : List (List (String × Json))) (acc : List (Json × NormalizedProxy))
    (k : Json) :
    pmapHasKey (pd.foldl (buildStep names) acc) k = true ↔
      (pmapHasKey acc k = true ∨
        ∃ proxy ∈ pd, (derive_proxy_id proxy).truthy = true ∧
          derive_proxy_id proxy = k) := by
  induction pd generalizing acc with
  | nil => simp
  | cons p rest ih =>
    rw [List.foldl_cons]
    rw [ih (buildStep names acc p)]
    unfold buildStep
    by_cases h : (derive_proxy_id p).truthy = true
    · rw [if_pos (by simpa using h)]
      rw [pmapHasKey_dictInsert]
      constructor
      · rintro ((hacc | hpk) | hex)
        · exact Or.inl hacc
        · exact Or.inr ⟨p, List.mem_cons_self _ _, h, hpk⟩
        · obtain ⟨q, hq, hqt, hqk⟩ := hex
          exact Or.inr ⟨q, List.mem_cons_of_mem _ hq, hqt, hqk⟩
      · rintro (hacc | ⟨q, hq, hqt, hqk⟩)
        · exact Or.inl (Or.inl hacc)
        · rcases List.mem_cons.mp hq with rfl | hq'
          · exact Or.inl (Or.inr hqk)
          · exact Or.inr ⟨q, hq', hqt, hqk⟩
    · rw [if_neg (by simpa using h)]
      constructor
      · rintro (hacc | ⟨q, hq, hqt, hqk⟩)
        · exact Or.inl hacc
        · exact Or.inr ⟨q, List.mem_cons_of_mem _ hq, hqt, hqk⟩
      · rintro (hacc | ⟨q, hq, hqt, hqk⟩)
        · exact Or.inl hacc
        · rcases List.mem_cons.mp hq with rfl | hq'
          · exact absurd hqt h
          · exact Or.inr ⟨q, hq', hqt, hqk⟩

/-- C3 (counterexample): a record whose `id` field is present but falsy is
dropped — `{"id": 0}` has an `id` field, yet `proxy.get("id") or
proxy.get("proxy_id")` evaluates to `0`, which fails the `if proxy_id:`
truthiness test, so the record is omitted from the published mapping,
contradicting the claim that a record is omitted only when it has neither
field. -/
theorem C3_counterexample :
    hasKey [("id", Json.int 0)] "id" = true ∧
    buildProxies [] [[("id", Json.int 0)]] = [] := by
  refine ⟨rfl, rfl⟩

/-- C3 (amended): in each poll cycle the coordinator derives each record's
identifier as `proxy.get("id") or proxy.get("proxy_id")` (the `id` value
when truthy, else the `proxy_id` value); a key is present in the published
proxies mapping exactly when some raw record's derived identifier is truthy
and equal to it — so a record is dropped exactly when its derived
identifier is falsy (both fields absent, or their values falsy such as
`null`, `0` or `""`), and every kept record appears keyed by its
identifier. -/
theorem C3_identifier_amended (names : NamesMap)
    (pd : List (List (String × Json))) (k : Json) :
    pmapHasKey (buildProxies names pd) k = true ↔
      ∃ proxy ∈ pd, (derive_proxy_id proxy).truthy = true ∧
        derive_proxy_id proxy = k := by
  rw [buildProxies, pmapHasKey_foldl_buildStep]
  simp [pmapHasKey]

/-- C3 (witness for the amended theorem): a record with truthy `id = 7`
appears in the mapping under key `7`. -/
theorem C3_identifier_amended_witness :
    pmapHasKey (buildProxies [] [[("id", Json.int 7)]]) (Json.int 7) = true :=
  (C3_identifier_amended [] [[("id", Json.int 7)]] (Json.int 7)).mpr
    ⟨[("id", Json.int 7)], List.mem_cons_self _ _, by decide, by decide⟩

/-- C9: a successful poll cycle returns a snapshot with exactly the four
keys `balance`, `currency`, `proxies` and `proxy_count`, in which
`proxy_count` is the number of entries of the proxies mapping, and a
balance response that omits `balance` or `currency` yields the defaults `0`
and `"USD"`. -/
theorem C9_snapshot_shape (names : NamesMap)
    (balance_data : List (String × Json))
    (pd : List (List (String × Json))) :
    (async_update_data names balance_data pd).map Prod.fst =
      ["balance", "currency", "proxies", "proxy_count"] ∧
    (async_update_data names balance_data pd).lookup "proxies" =
      some (.pmap (buildProxies names pd)) ∧
    (async_update_data names balance_data pd).lookup "proxy_count" =
      some (.count (buildProxies names pd).length) ∧
    (hasKey balance_data "balance" = false →
      (async_update_data names balance_data pd).lookup "balance" =
        some (.jval (.int 0))) ∧
    (hasKey balance_data "currency" = false →
      (async_update_data names balance_data pd).lookup "currency" =
        some (.jval (.str "USD"))) := by
  refine ⟨rfl, rfl, rfl, ?_, ?_⟩
  · intro h
    have : balance_data.lookup "balance" = none := by
      simpa [hasKey, Option.isSome_iff_exists] using h
    simp [async_update_data, pyGetD, this, List.lookup]
  · intro h
    have : balance_data.lookup "currency" = none := by
      simpa [hasKey, Option.isSome_iff_exists] using h
    simp [async_update_data, pyGetD, this, List.lookup]

/-- C9 (witness): an empty balance response yields balance `0`, currency
`"USD"`, and a snapshot whose `proxy_count` matches its empty mapping. -/
theorem C9_snapshot_shape_witness :
    (async_update_data [] [] []).lookup "balance" =
      some (.jval (.int 0)) ∧
    (async_update_data [] [] []).lookup "currency" =
      some (.jval (.str "USD")) :=
  ⟨(C9_snapshot_shape [] [] []).2.2.2.1 rfl,
   (C9_snapshot_shape [] [] []).2.2.2.2 rfl⟩

/-- Unpack `intOrNullOrAbsent`: the `.get` result is `None` or an integer. -/
theorem intOrNullOrAbsent_elim {fs : List (String × Json)} {k : String}
    (h : intOrNullOrAbsent fs k = true) :
    pyGet fs k = Json.null ∨ ∃ n : Int, pyGet fs k = Json.int n := by
  unfold intOrNullOrAbsent at h
  unfold pyGet
  rcases hl : fs.lookup k with _ | v
  · exact Or.inl rfl
  · rw [hl] at h
    cases v with
    | null => exact Or.inl rfl
    | int n => exact Or.inr ⟨n, rfl⟩
    | bool b => exact Bool.noConfusion h
    | str s => exact Bool.noConfusion h
    | arr xs => exact Bool.noConfusion h
    | obj gs => exact Bool.noConfusion h

/-- C2: the normalized `bandwidth_remaining` is `None` exactly when
`bandwidth_total` is `None`; `bandwidth_unlimited` is true exactly when
`bandwidth_total` is `None`; and a non-null total `T` yields remaining
`T` when `used` is `None` (missing `used` treated as zero) and `T - used`
otherwise. -/
theorem C2_bandwidth_invariants (names : NamesMap)
    (proxy : List (String × Json)) (hwf : wfProxy proxy = true) :
    ((normalize_proxy_data names proxy).bandwidth_remaining = Json.null ↔
      (normalize_proxy_data names proxy).bandwidth_total = Json.null) ∧
    ((normalize_proxy_data names proxy).bandwidth_unlimited = true ↔
      (normalize_proxy_data names proxy).bandwidth_total = Json.null) ∧
    (∀ T : Int,
      (normalize_proxy_data names proxy).bandwidth_total = Json.int T →
      (normalize_proxy_data names proxy).bandwidth_used = Json.null →
      (normalize_proxy_data names proxy).bandwidth_remaining = Json.int T) ∧
    (∀ T u : Int,
      (normalize_proxy_data names proxy).bandwidth_total = Json.int T →
      (normalize_proxy_data names proxy).bandwidth_used = Json.int u →
      (normalize_proxy_data names proxy).bandwidth_remaining =
        Json.int (T - u)) := by
  have hbt : (normalize_proxy_data names proxy).bandwidth_total =
      pyGet (bwFields proxy) "total" := rfl
  have hbu : (normalize_proxy_data names proxy).bandwidth_used =
      pyGet (bwFields proxy) "used" := rfl
  have hbr : (normalize_proxy_data names proxy).bandwidth_remaining =
      bandwidth_remaining_of proxy := rfl
  have hbl : (normalize_proxy_data names proxy).bandwidth_unlimited =
      (pyGet (bwFields proxy) "total").isNull := rfl
  rw [hbt, hbu, hbr, hbl]
  simp only [wfProxy, Bool.and_eq_true] at hwf
  obtain ⟨⟨⟨⟨⟨⟨hco, hau⟩, hbw⟩, hme⟩, hpt⟩, htot⟩, hus⟩ := hwf
  rcases intOrNullOrAbsent_elim htot with h0 | ⟨T0, hT0⟩
  · refine ⟨?_, ?_, ?_, ?_⟩
    · simp [bandwidth_remaining_of, h0, Json.isNull]
    · simp [h0, Json.isNull]
    · intro T hT
      rw [h0] at hT
      exact absurd hT (by simp)
    · intro T u hT
      rw [h0] at hT
      exact absurd hT (by simp)
  · rcases intOrNullOrAbsent_elim hus with hu0 | ⟨u0, hu0⟩
    · refine ⟨?_, ?_, ?_, ?_⟩
      · simp [bandwidth_remaining_of, hT0, hu0, jsub, Json.isNull]
      · simp [hT0, Json.isNull]
      · intro T hT hu
        rw [hT0] at hT
        injection hT with hTT
        subst hTT
        simp [bandwidth_remaining_of, hT0, hu0, jsub, Json.isNull]
      · intro T u hT hu
        rw [hu0] at hu
        exact absurd hu (by simp)
    · refine ⟨?_, ?_, ?_, ?_⟩
      · simp [bandwidth_remaining_of, hT0, hu0, jsub, Json.isNull]
      · simp [hT0, Json.isNull]
      · intro T hT hu
        rw [hu0] at hu
        exact absurd hu (by simp)
      · intro T u hT hu
        rw [hT0] at hT
        rw [hu0] at hu
        injection hT with hTT
        injection hu with huu
        subst hTT
        subst huu
        simp [bandwidth_remaining_of, hT0, hu0, jsub, Json.isNull]

/-- C2 (witness): the spec scenario record with `total = 100`, `used = 30`
yields `bandwidth_remaining = 70`, and its `bandwidth_unlimited` is not
set. -/
theorem C2_bandwidth_invariants_witness :
    (normalize_proxy_data []
      [("id", Json.int 7), ("proxyType", Json.str "SOCKS5"),
       ("connection", Json.obj [("socks5Port", Json.int 1080)]),
       ("bandwidth", Json.obj [("total", Json.int 100), ("used", Json.int 30)])]
      ).bandwidth_remaining = Json.int 70 := by
  exact (C2_bandwidth_invariants []
    [("id", Json.int 7), ("proxyType", Json.str "SOCKS5"),
     ("connection", Json.obj [("socks5Port", Json.int 1080)]),
     ("bandwidth", Json.obj [("total", Json.int 100), ("used", Json.int 30)])]
    (by decide)).2.2.2 100 30 rfl rfl

/-- C5: the normalized `authentication_type` takes no value outside
`{"IP_WHITELIST", "USERNAME_PASSWORD", None}`; it is `"IP_WHITELIST"`
exactly when a whitelisted IP is present (the vendor's `whitelistedIps`
is truthy), `"USERNAME_PASSWORD"` exactly when no whitelisted IP but a
username is present, `None` otherwise; and it is a function of those two
presence checks alone — never read from a vendor field. -/
theorem C5_authentication_type (names : NamesMap)
    (proxy : List (String × Json)) (_hwf : wfProxy proxy = true) :
    ((normalize_proxy_data names proxy).authentication_type =
        Json.str "IP_WHITELIST" ∨
      (normalize_proxy_data names proxy).authentication_type =
        Json.str "USERNAME_PASSWORD" ∨
      (normalize_proxy_data names proxy).authentication_type = Json.null) ∧
    ((normalize_proxy_data names proxy).authentication_type =
        Json.str "IP_WHITELIST" ↔
      (pyGet (authFields proxy) "whitelistedIps").truthy = true) ∧
    ((normalize_proxy_data names proxy).authentication_type =
        Json.str "USERNAME_PASSWORD" ↔
      ((pyGet (authFields proxy) "whitelistedIps").truthy = false ∧
        (pyGet (authFields proxy) "username").truthy = true)) ∧
    ((normalize_proxy_data names proxy).authentication_type = Json.null ↔
      ((pyGet (authFields proxy) "whitelistedIps").truthy = false ∧
        (pyGet (authFields proxy) "username").truthy = false)) ∧
    (∀ (names₂ : NamesMap) (proxy₂ : List (String × Json)),
      (pyGet (authFields proxy₂) "whitelistedIps").truthy =
        (pyGet (authFields proxy) "whitelistedIps").truthy →
      (pyGet (authFields proxy₂) "username").truthy =
        (pyGet (authFields proxy) "username").truthy →
      (normalize_proxy_data names₂ proxy₂).authentication_type =
        (normalize_proxy_data names proxy).authentication_type) := by
  have ha : (normalize_proxy_data names proxy).authentication_type =
      authentication_type_of proxy := rfl
  rw [ha]
  have hdet : ∀ (names₂ : NamesMap) (proxy₂ : List (String × Json)),
      (pyGet (authFields proxy₂) "whitelistedIps").truthy =
        (pyGet (authFields proxy) "whitelistedIps").truthy →
      (pyGet (authFields proxy₂) "username").truthy =
        (pyGet (authFields proxy) "username").truthy →
      (normalize_proxy_data names₂ proxy₂).authentication_type =
        authentication_type_of proxy := by
    intro names₂ proxy₂ hw hu
    have ha₂ : (normalize_proxy_data names₂ proxy₂).authentication_type =
        authentication_type_of proxy₂ := rfl
    rw [ha₂]
    unfold authentication_type_of
    rw [hw, hu]
  by_cases hw : (pyGet (authFields proxy) "whitelistedIps").truthy = true
  · refine ⟨Or.inl ?_, ?_, ?_, ?_, hdet⟩ <;>
      simp [authentication_type_of, hw]
  · by_cases hu : (pyGet (authFields proxy) "username").truthy = true
    · refine ⟨Or.inr (Or.inl ?_), ?_, ?_, ?_, hdet⟩ <;>
        simp [authentication_type_of, hw, hu]
    · refine ⟨Or.inr (Or.inr ?_), ?_, ?_, ?_, hdet⟩ <;>
        simp [authentication_type_of, hw, hu]

/-- C5 (witness): a record with a username and no whitelisted IPs is
normalized to `authentication_type = "USERNAME_PASSWORD"`. -/
theorem C5_authentication_type_witness :
    (normalize_proxy_data []
      [("authentication", Json.obj [("username", Json.str "u")])]
      ).authentication_type = Json.str "USERNAME_PASSWORD" :=
  (C5_authentication_type []
    [("authentication", Json.obj [("username", Json.str "u")])]
    (by decide)).2.2.1.mpr ⟨by decide, by decide⟩

/-- C6: the normalized port is the connection port matching the declared
protocol (`httpPort` for HTTP, `httpsPort` for HTTPS, `socks5Port` for
SOCKS5); when the uppercased protocol is absent or unrecognized, the port
is the first truthy one among `httpPort`, `httpsPort`, `socks5Port` in that
fixed preference order (the value of `socks5Port` when none is truthy). -/
theorem C6_port_selection (names : NamesMap)
    (proxy : List (String × Json)) (_hwf : wfProxy proxy = true) :
    (proxy_type_of proxy = "HTTP" →
      (normalize_proxy_data names proxy).port =
        pyGet (connFields proxy) "httpPort") ∧
    (proxy_type_of proxy = "HTTPS" →
      (normalize_proxy_data names proxy).port =
        pyGet (connFields proxy) "httpsPort") ∧
    (proxy_type_of proxy = "SOCKS5" →
      (normalize_proxy_data names proxy).port =
        pyGet (connFields proxy) "socks5Port") ∧
    (proxy_type_of proxy ≠ "HTTP" → proxy_type_of proxy ≠ "HTTPS" →
      proxy_type_of proxy ≠ "SOCKS5" →
      (((pyGet (connFields proxy) "httpPort").truthy = true →
        (normalize_proxy_data names proxy).port =
          pyGet (connFields proxy) "httpPort") ∧
      ((pyGet (connFields proxy) "httpPort").truthy = false →
        (pyGet (connFields proxy) "httpsPort").truthy = true →
        (normalize_proxy_data names proxy).port =
          pyGet (connFields proxy) "httpsPort") ∧
      ((pyGet (connFields proxy) "httpPort").truthy = false →
        (pyGet (connFields proxy) "httpsPort").truthy = false →
        (normalize_proxy_data names proxy).port =
          pyGet (connFields proxy) "socks5Port"))) := by
  have hp : (normalize_proxy_data names proxy).port = port_of proxy := rfl
  rw [hp]
  refine ⟨?_, ?_, ?_, ?_⟩
  · intro h
    simp [port_of, h]
  · intro h
    simp [port_of, h]
  · intro h
    simp [port_of, h]
  · intro h1 h2 h3
    refine ⟨?_, ?_, ?_⟩
    · intro ht
      simp [port_of, h1, h2, h3, pyOr, ht]
    · intro hf ht
      simp [port_of, h1, h2, h3, pyOr, hf, ht]
    · intro hf1 hf2
      simp [port_of, h1, h2, h3, pyOr, hf1, hf2]

/-- C6 (witness): the spec scenario record with `proxyType = "SOCKS5"` and
`socks5Port = 1080` is normalized to `port = 1080`. -/
theorem C6_port_selection_witness :
    (normalize_proxy_data []
      [("id", Json.int 7), ("proxyType", Json.str "SOCKS5"),
       ("connection", Json.obj [("socks5Port", Json.int 1080)]),
       ("bandwidth", Json.obj [("total", Json.int 100), ("used", Json.int 30)])]
      ).port = Json.int 1080 :=
  (C6_port_selection []
    [("id", Json.int 7), ("proxyType", Json.str "SOCKS5"),
     ("connection", Json.obj [("socks5Port", Json.int 1080)]),
     ("bandwidth", Json.obj [("total", Json.int 100), ("used", Json.int 30)])]
    (by decide)).2.2.1 (by decide)
